import Mathlib

/-!
Shallow embedding of the ticket reservation system's core
(booking service, payment worker retry policy, Redis lock wrapper),
translated from `src/booking-service/src/app.js` and the payment
service source. Time is modelled in milliseconds as `Int`; money in
integral units as `Int`. Database tables are lists of records; each
HTTP handler's transaction body is a pure function from the database
state to a result paired with the successor state.
-/

namespace TicketSystem

/-- Booking lifecycle status (`bookings.status` enum). -/
inductive BStatus
  | pending
  | confirmed
  | cancelled
  | expired
deriving DecidableEq

/-- Payment status (`bookings.payment_status` / `payments.status` enum). -/
inductive PayStatus
  | pending
  | completed
  | failed
  | refunded
deriving DecidableEq

/-- Event lifecycle status (`events.status` enum). -/
inductive EStatus
  | active
  | inactive
  | cancelled
deriving DecidableEq

/-- A row of the `events` table (fields the core reads or writes). -/
structure Event where
  id : Nat
  eventDate : Int
  totalTickets : Int
  availableTickets : Int
  price : Int
  status : EStatus
deriving DecidableEq

/-- A row of the `bookings` table (fields the core reads or writes). -/
structure Booking where
  id : Nat
  userId : Nat
  eventId : Nat
  ticketCount : Int
  totalAmount : Int
  status : BStatus
  paymentStatus : PayStatus
  expiresAt : Int
deriving DecidableEq

/-- A row of the `payments` table. -/
structure Payment where
  bookingId : Nat
  amount : Int
  method : String
  gatewayId : String
  status : PayStatus
deriving DecidableEq

/-- The relational state: the three tables the core mutates. -/
structure DB where
  events : List Event
  bookings : List Booking
  payments : List Payment
deriving DecidableEq

/-! ## Distributed lock wrapper (`acquireLock` / `releaseLock` in app.js)

The Redis keyspace is an association list from keys to the stored
owner tokens. -/

/-- Redis `GET key` on the lock store. -/
def lockGet (locks : List (String × String)) (key : String) : Option String :=
  (locks.find? (fun p => p.1 == key)).map (fun p => p.2)

/-- Redis `SET key value NX PX ttl`: set only if the key is absent, returning
the fresh token on success (`acquireLock`, app.js lines 83-95; the token
is a uuid, passed in here). -/
def acquireLock (locks : List (String × String)) (key tok : String) :
    Option String × List (String × String) :=
  match lockGet locks key with
  | some _ => (none, locks)
  | none => (some tok, (key, tok) :: locks)

/-- The Lua compare-and-delete script of `releaseLock` (app.js lines
97-110): delete the key only when it currently stores exactly the
presented token, else do nothing. -/
def releaseLock (locks : List (String × String)) (key tok : String) :
    List (String × String) :=
  if lockGet locks key = some tok then
    locks.filter (fun p => ¬ p.1 = key)
  else
    locks

/-! ## Query helpers (the SELECTs of the booking service) -/

/-- Query `SELECT ... FROM events WHERE id = ? AND status = "active"`. -/
def eventFindActive (db : DB) (eid : Nat) : Option Event :=
  db.events.find? (fun e => decide (e.id = eid ∧ e.status = EStatus.active))

/-- Query `SELECT ... FROM events WHERE id = ?`. -/
def eventFindById (db : DB) (eid : Nat) : Option Event :=
  db.events.find? (fun e => decide (e.id = eid))

/-- Query `SELECT * FROM bookings WHERE id = ? AND user_id = ?`. -/
def bookingFind (db : DB) (bid uid : Nat) : Option Booking :=
  db.bookings.find? (fun b => decide (b.id = bid ∧ b.userId = uid))

/-- Query `SELECT * FROM bookings WHERE id = ?`. -/
def bookingFindById (db : DB) (bid : Nat) : Option Booking :=
  db.bookings.find? (fun b => decide (b.id = bid))

/-- Query `SELECT id FROM bookings WHERE user_id = ? AND event_id = ? AND
status IN ("pending", "confirmed")` is non-empty. -/
def hasActiveBooking (db : DB) (uid eid : Nat) : Bool :=
  db.bookings.any (fun b =>
    decide (b.userId = uid ∧ b.eventId = eid ∧
      (b.status = BStatus.pending ∨ b.status = BStatus.confirmed)))

/-- Update `UPDATE events SET available_tickets = available_tickets + c WHERE
id = ?` (used by cancel and by the expiry sweep's per-booking loop). -/
def restoreTickets (events : List Event) (eid : Nat) (c : Int) : List Event :=
  events.map (fun e =>
    if e.id = eid then { e with availableTickets := e.availableTickets + c } else e)

/-! ## Reserve (`POST /api/bookings`, app.js lines 113-259) -/

/-- Outcome of a reservation request, mirroring the handler's
responses. `insufficient` carries the remaining available count shown
in the error message. -/
inductive ReserveResult
  | missingFields
  | invalidCount
  | busy
  | notFound
  | pastEvent
  | insufficient (remaining : Int)
  | duplicate
  | success (bookingId : Nat) (totalAmount : Int)
deriving DecidableEq

/-- The transaction body of the booking handler (app.js lines 139-196):
validate the event, its date, the inventory and the per-user duplicate
rule, then insert the pending booking and decrement the counter.
`newId` stands for the auto-increment id assigned by the database. -/
def reserveTx (db : DB) (now : Int) (uid eid : Nat) (tc : Int) (newId : Nat) :
    ReserveResult × DB :=
  match eventFindActive db eid with
  | none => (ReserveResult.notFound, db)
  | some ev =>
    if ev.eventDate ≤ now then (ReserveResult.pastEvent, db)
    else if ev.availableTickets < tc then
      (ReserveResult.insufficient ev.availableTickets, db)
    else if hasActiveBooking db uid eid then (ReserveResult.duplicate, db)
    else
      let amount := ev.price * tc
      let newBooking : Booking :=
        { id := newId, userId := uid, eventId := eid, ticketCount := tc,
          totalAmount := amount, status := BStatus.pending,
          paymentStatus := PayStatus.pending, expiresAt := now + 15 * 60 * 1000 }
      let events' := db.events.map (fun e =>
        if e.id = eid then { e with availableTickets := e.availableTickets - tc } else e)
      (ReserveResult.success newId amount,
       { db with events := events', bookings := db.bookings ++ [newBooking] })

/-- The lock store together with the database: the state the booking
handler touches. -/
structure SysState where
  locks : List (String × String)
  db : DB
deriving DecidableEq

/-- The full booking handler (app.js lines 113-259). JavaScript
destructures the request body, so an absent field is `none`; the
`!userId || !eventId || !ticketCount` guard also fires on the falsy
number 0. Only after both validations does it acquire the per-event
distributed lock, run the transaction, and finally release the lock. -/
def reserveHandler (s : SysState) (now : Int) (tok : String) (newId : Nat)
    (userId eventId : Option Nat) (ticketCount : Option Int) :
    ReserveResult × SysState :=
  match userId, eventId, ticketCount with
  | some u, some e, some tc =>
    if u = 0 ∨ e = 0 ∨ tc = 0 then (ReserveResult.missingFields, s)
    else if tc ≤ 0 ∨ 10 < tc then (ReserveResult.invalidCount, s)
    else
      let key := "event_booking_lock:" ++ toString e
      match acquireLock s.locks key tok with
      | (none, locks') => (ReserveResult.busy, { s with locks := locks' })
      | (some lv, locks') =>
        let r := reserveTx s.db now u e tc newId
        (r.1, { locks := releaseLock locks' key lv, db := r.2 })
  | _, _, _ => (ReserveResult.missingFields, s)

/-! ## Cancel (`POST /api/bookings/:bookingId/cancel`, app.js 337-433) -/

/-- Outcome of a cancellation request. -/
inductive CancelResult
  | notFound
  | alreadyCancelled
  | tooLate
  | internalError
  | success (refundAmount : Int)
deriving DecidableEq

/-- The state mutation shared by every accepted cancellation (app.js
lines 384-394): mark the booking cancelled and return its tickets to
the pool; the refund is `total_amount` iff `payment_status` is
completed. -/
def applyCancel (db : DB) (b : Booking) (bid : Nat) : CancelResult × DB :=
  let bookings' := db.bookings.map (fun x =>
    if x.id = bid then { x with status := BStatus.cancelled } else x)
  let events' := restoreTickets db.events b.eventId b.ticketCount
  (CancelResult.success
     (if b.paymentStatus = PayStatus.completed then b.totalAmount else 0),
   { db with events := events', bookings := bookings' })

/-- The cancel handler's transaction (app.js lines 343-420). It rejects
a booking already `cancelled`, applies the 24-hour rule to a
`confirmed` booking (a missing event row makes the JavaScript throw,
rolling back), and cancels otherwise. Note the source has no guard for
status `expired`: such a booking falls through to `applyCancel`. -/
def cancel (db : DB) (now : Int) (bid uid : Nat) : CancelResult × DB :=
  match bookingFind db bid uid with
  | none => (CancelResult.notFound, db)
  | some b =>
    if b.status = BStatus.cancelled then (CancelResult.alreadyCancelled, db)
    else if b.status = BStatus.confirmed then
      match eventFindById db b.eventId with
      | none => (CancelResult.internalError, db)
      | some ev =>
        if ev.eventDate - now < 24 * 3600 * 1000 then (CancelResult.tooLate, db)
        else applyCancel db b bid
    else applyCancel db b bid

/-! ## Confirm payment (`POST /api/bookings/:bookingId/confirm-payment`,
app.js lines 436-508) -/

/-- Outcome of a payment confirmation request. -/
inductive ConfirmResult
  | notFound
  | notPending
  | success
deriving DecidableEq

/-- The row update of `UPDATE bookings SET status = "confirmed",
payment_status = "completed" WHERE id = ?`. -/
def confirmUpd (bid : Nat) (x : Booking) : Booking :=
  if x.id = bid then
    { x with status := BStatus.confirmed, paymentStatus := PayStatus.completed }
  else x

/-- The confirm-payment transaction: reject unless the booking is still
`pending`; otherwise set it `confirmed` with `payment_status =
completed` and insert one completed `payments` row for the booking's
`total_amount`. -/
def confirmPayment (db : DB) (bid : Nat) (paymentId paymentMethod : String) :
    ConfirmResult × DB :=
  match bookingFindById db bid with
  | none => (ConfirmResult.notFound, db)
  | some b =>
    if b.status = BStatus.pending then
      let bookings' := db.bookings.map (confirmUpd bid)
      let payments' := db.payments ++
        [{ bookingId := bid, amount := b.totalAmount, method := paymentMethod,
           gatewayId := paymentId, status := PayStatus.completed }]
      (ConfirmResult.success, { db with bookings := bookings', payments := payments' })
    else (ConfirmResult.notPending, db)

/-! ## Expiry sweep (`POST /api/bookings/cleanup-expired`, app.js 511-582) -/

/-- Eligibility predicate of the sweep's SELECT and bulk UPDATE:
`status = 'pending' AND expires_at < NOW()`. -/
def isSweepable (now : Int) (b : Booking) : Bool :=
  decide (b.status = BStatus.pending ∧ b.expiresAt < now)

/-- The sweep transaction: select the expired pending bookings; if none,
do nothing and report 0; otherwise loop restoring each booking's
tickets to its event, bulk-update the selected rows to `expired`, and
report how many were selected. -/
def sweepExpired (db : DB) (now : Int) : Nat × DB :=
  let expired := db.bookings.filter (isSweepable now)
  if expired.isEmpty then (0, db)
  else
    let events' := expired.foldl
      (fun acc b => restoreTickets acc b.eventId b.ticketCount) db.events
    let bookings' := db.bookings.map (fun b =>
      if isSweepable now b then { b with status := BStatus.expired } else b)
    (expired.length, { db with events := events', bookings := bookings' })

/-! ## Payment worker retry policy (payment service, `processPayment`
catch block) -/

/-- What the worker does with the original message after a processing
error: republish the same payload with a bumped retry header after a
delay, or acknowledge and drop. -/
inductive RetryAction
  | republish (newRetryCount : Nat) (delayMs : Nat)
  | drop
deriving DecidableEq

/-- The catch block of `processPayment`: read `headers.retryCount`
(defaulting to 0 when absent); below 3, schedule a republish with the
counter incremented and a backoff of `5000 * (retryCount + 1)`
milliseconds; at 3 or more, acknowledge without republishing. -/
def handleProcessingError (retryHeader : Option Nat) : RetryAction :=
  let retryCount := retryHeader.getD 0
  if retryCount < 3 then
    RetryAction.republish (retryCount + 1) (5000 * (retryCount + 1))
  else RetryAction.drop

/-- Number of times a message whose every processing attempt errors is
processed, starting from retry counter `rc`, bounded by `fuel`
iterations. -/
def attemptsFromFuel : Nat → Nat → Nat
  | 0, _ => 0
  | fuel + 1, rc =>
    match handleProcessingError (some rc) with
    | RetryAction.drop => 1
    | RetryAction.republish n _ => 1 + attemptsFromFuel fuel n

/-! ## The inventory invariant (spec section 3 / section 8) -/

/-- Sum of `ticket_count` over a list of bookings. -/
def ticketSum (l : List Booking) : Int :=
  l.foldr (fun b acc => b.ticketCount + acc) 0

/-- Sum of `ticket_count` over the pending/confirmed bookings of event
`eid`. -/
def activeTicketSum (bookings : List Booking) (eid : Nat) : Int :=
  ticketSum (bookings.filter (fun b =>
    decide (b.eventId = eid ∧
      (b.status = BStatus.pending ∨ b.status = BStatus.confirmed))))

/-- The central invariant: for every event, `available_tickets` plus
the tickets held by its pending/confirmed bookings equals
`total_tickets`. -/
def invariantHolds (db : DB) : Prop :=
  ∀ e ∈ db.events, e.availableTickets + activeTicketSum db.bookings e.id = e.totalTickets

/-- Sum of `ticket_count` over the bookings of a list whose event is
`eid`. -/
def eventTicketSum (l : List Booking) (eid : Nat) : Int :=
  ticketSum (l.filter (fun b => decide (b.eventId = eid)))

instance (db : DB) : Decidable (invariantHolds db) := by
  unfold invariantHolds
  infer_instance

/-! ## Helper lemmas -/

/-- Unfolding of `handleProcessingError` below the retry limit. -/
theorem handleProcessingError_lt (rc : Nat) (h : rc < 3) :
    handleProcessingError (some rc)
      = RetryAction.republish (rc + 1) (5000 * (rc + 1)) := by
  simp [handleProcessingError, h]

/-- Unfolding of `handleProcessingError` at or above the retry limit. -/
theorem handleProcessingError_ge (rc : Nat) (h : 3 ≤ rc) :
    handleProcessingError (some rc) = RetryAction.drop := by
  simp [handleProcessingError, Nat.not_lt.mpr h]

/-- An always-erroring message is processed at most `max 1 (4 - rc)`
times starting from retry counter `rc`, whatever the fuel. -/
theorem attemptsFromFuel_le (fuel rc : Nat) :
    attemptsFromFuel fuel rc ≤ max 1 (4 - rc) := by
  induction fuel generalizing rc with
  | zero => simp [attemptsFromFuel]
  | succ n ih =>
    by_cases h : rc < 3
    · have hstep : attemptsFromFuel (n + 1) rc = 1 + attemptsFromFuel n (rc + 1) := by
        rw [attemptsFromFuel, handleProcessingError_lt rc h]
      have := ih (rc + 1)
      omega
    · have hstep : attemptsFromFuel (n + 1) rc = 1 := by
        rw [attemptsFromFuel, handleProcessingError_ge rc (Nat.le_of_not_lt h)]
      omega

end TicketSystem

namespace TicketSystem

/-- C5: for every lock key and tokens `t1 ≠ t2`, releasing while the
lock stores `t1` but presenting `t2` leaves the whole lock store
unchanged; conversely, the store changes only when the presented token
equals the stored one. -/
theorem releaseLock_token_guard (locks : List (String × String)) (key t1 t2 : String) :
    (lockGet locks key = some t1 → t1 ≠ t2 → releaseLock locks key t2 = locks)
    ∧ (releaseLock locks key t2 ≠ locks → lockGet locks key = some t2) := by
  constructor
  · intro h1 hne
    unfold releaseLock
    have hmis : ¬ (lockGet locks key = some t2) := by
      rw [h1]
      intro hc
      exact hne (Option.some.inj hc)
    simp [hmis]
  · intro hch
    unfold releaseLock at hch
    by_cases h : lockGet locks key = some t2
    · exact h
    · simp [h] at hch

/-- C7: the payment worker's error path republishes with the counter
incremented by exactly 1 and a delay of `5000·(retryCount+1)` ms while
the counter is below 3, drops at 3 or more, defaults an absent counter
to 0, and an always-failing message starting at counter 0 is processed
exactly 4 times (and never more, whatever the fuel). -/
theorem paymentRetry_policy :
    (∀ rc : Nat, rc < 3 → handleProcessingError (some rc)
        = RetryAction.republish (rc + 1) (5000 * (rc + 1)))
    ∧ (∀ rc : Nat, 3 ≤ rc → handleProcessingError (some rc) = RetryAction.drop)
    ∧ handleProcessingError none = RetryAction.republish 1 5000
    ∧ attemptsFromFuel 100 0 = 4
    ∧ (∀ fuel : Nat, attemptsFromFuel fuel 0 ≤ 4) := by
  refine ⟨handleProcessingError_lt, handleProcessingError_ge, by decide, by decide, ?_⟩
  intro fuel
  have := attemptsFromFuel_le fuel 0
  omega

/-- Witness for C7 at concrete retry counters 0 and 3 and fuel 100. -/
theorem paymentRetry_policy_witness :
    handleProcessingError (some 0) = RetryAction.republish 1 5000
    ∧ handleProcessingError (some 3) = RetryAction.drop
    ∧ attemptsFromFuel 100 0 ≤ 4 :=
  ⟨paymentRetry_policy.1 0 (by decide),
   paymentRetry_policy.2.1 3 (by decide),
   paymentRetry_policy.2.2.2.2 100⟩

/-- Witness for C5 on a one-entry lock store: a mismatched token leaves
the store intact. -/
theorem releaseLock_token_guard_witness :
    releaseLock [("k", "a")] "k" "b" = [("k", "a")] :=
  (releaseLock_token_guard [("k", "a")] "k" "a" "b").1 (by decide) (by decide)

/-- The reservation transaction never produces the input-range error:
that error is emitted before the transaction starts. -/
theorem reserveTx_ne_invalidCount (db : DB) (now : Int) (uid eid : Nat)
    (tc : Int) (newId : Nat) :
    (reserveTx db now uid eid tc newId).1 ≠ ReserveResult.invalidCount := by
  unfold reserveTx
  cases eventFindActive db eid with
  | none => simp
  | some ev =>
    simp only
    split
    · simp
    · split
      · simp
      · split <;> simp

/-- C6: each validation failure of the reservation transaction (event
missing or inactive, past event, insufficient inventory, duplicate
active booking) returns exactly the matching error and leaves the
database unchanged; the insufficient error carries the event's
remaining `available_tickets`. -/
theorem reserve_validation_errors (db : DB) (now : Int) (uid eid : Nat)
    (tc : Int) (newId : Nat) :
    (eventFindActive db eid = none →
        reserveTx db now uid eid tc newId = (ReserveResult.notFound, db))
    ∧ (∀ ev, eventFindActive db eid = some ev →
        (ev.eventDate ≤ now →
            reserveTx db now uid eid tc newId = (ReserveResult.pastEvent, db))
        ∧ (now < ev.eventDate → ev.availableTickets < tc →
            reserveTx db now uid eid tc newId
              = (ReserveResult.insufficient ev.availableTickets, db))
        ∧ (now < ev.eventDate → tc ≤ ev.availableTickets →
            hasActiveBooking db uid eid = true →
            reserveTx db now uid eid tc newId = (ReserveResult.duplicate, db))) := by
  constructor
  · intro h
    unfold reserveTx
    rw [h]
  · intro ev h
    refine ⟨?_, ?_, ?_⟩
    · intro hd
      unfold reserveTx
      rw [h]
      simp [hd]
    · intro hd hin
      unfold reserveTx
      rw [h]
      simp [Int.not_le.mpr hd, hin]
    · intro hd hin hdup
      unfold reserveTx
      rw [h]
      simp [Int.not_le.mpr hd, Int.not_lt.mpr hin, hdup]

/-- A one-event, one-pending-booking database used to instantiate the
validation theorems. -/
def evWitness : Event :=
  { id := 1, eventDate := 1000000, totalTickets := 5, availableTickets := 2,
    price := 50, status := EStatus.active }

/-- The pending booking of `dbWitness`. -/
def bkWitness : Booking :=
  { id := 1, userId := 7, eventId := 1, ticketCount := 2, totalAmount := 100,
    status := BStatus.pending, paymentStatus := PayStatus.pending,
    expiresAt := 500 }

/-- See `evWitness`. -/
def dbWitness : DB :=
  { events := [evWitness], bookings := [bkWitness], payments := [] }

/-- Witness for C6: the four validation failures on `dbWitness`. -/
theorem reserve_validation_errors_witness :
    reserveTx dbWitness 600 9 2 1 99 = (ReserveResult.notFound, dbWitness)
    ∧ reserveTx dbWitness 2000000 9 1 1 99 = (ReserveResult.pastEvent, dbWitness)
    ∧ reserveTx dbWitness 600 9 1 5 99 = (ReserveResult.insufficient 2, dbWitness)
    ∧ reserveTx dbWitness 600 7 1 1 99 = (ReserveResult.duplicate, dbWitness) :=
  ⟨(reserve_validation_errors dbWitness 600 9 2 1 99).1 (by decide),
   (((reserve_validation_errors dbWitness 2000000 9 1 1 99).2 evWitness (by decide)).1
      (by decide)),
   ((((reserve_validation_errors dbWitness 600 9 1 5 99).2 evWitness (by decide)).2.1
      (by decide)) (by decide)),
   (((((reserve_validation_errors dbWitness 600 7 1 1 99).2 evWitness (by decide)).2.2
      (by decide)) (by decide)) (by decide))⟩

/-- C9: a falsy `userId`, `eventId` or `ticketCount` (absent field or
the number 0) is rejected with the missing-fields error before the
distributed lock is acquired and before any database access, leaving
the whole system state (lock store and database) unchanged; the 1-10
range error arises only from a present, non-zero ticket count outside
the range, likewise leaving the state unchanged. -/
theorem reserve_input_validation (s : SysState) (now : Int) (tok : String)
    (newId : Nat) (userId eventId : Option Nat) (ticketCount : Option Int) :
    ((userId = none ∨ userId = some 0 ∨ eventId = none ∨ eventId = some 0
        ∨ ticketCount = none ∨ ticketCount = some 0) →
      reserveHandler s now tok newId userId eventId ticketCount
        = (ReserveResult.missingFields, s))
    ∧ (∀ s', reserveHandler s now tok newId userId eventId ticketCount
          = (ReserveResult.invalidCount, s') →
        s' = s ∧ ∃ tc : Int, ticketCount = some tc ∧ tc ≠ 0 ∧ (tc < 0 ∨ 10 < tc)) := by
  constructor
  · intro h
    rcases userId with _ | u
    · rfl
    rcases eventId with _ | e
    · rfl
    rcases ticketCount with _ | tc
    · rfl
    have hz : u = 0 ∨ e = 0 ∨ tc = 0 := by
      rcases h with h | h | h | h | h | h <;> simp_all
    simp [reserveHandler, hz]
  · intro s' heq
    rcases userId with _ | u
    · simp [reserveHandler] at heq
    rcases eventId with _ | e
    · simp [reserveHandler] at heq
    rcases ticketCount with _ | tc
    · simp [reserveHandler] at heq
    by_cases h0 : u = 0 ∨ e = 0 ∨ tc = 0
    · simp [reserveHandler, h0] at heq
    by_cases hr : tc ≤ 0 ∨ 10 < tc
    · have htc0 : ¬ tc = 0 := fun hc => h0 (Or.inr (Or.inr hc))
      have hs : s' = s := by
        simp [reserveHandler, h0, hr] at heq
        exact heq.symm
      exact ⟨hs, tc, rfl, htc0, by omega⟩
    · exfalso
      simp only [reserveHandler] at heq
      rw [if_neg h0, if_neg hr] at heq
      rcases hacq : acquireLock s.locks ("event_booking_lock:" ++ toString e) tok
        with ⟨o, locks'⟩
      rw [hacq] at heq
      rcases o with _ | lv
      · simp at heq
      · simp at heq
        exact reserveTx_ne_invalidCount s.db now u e tc newId heq.1

/-- Witness for C9: a zero ticket count yields the missing-fields
rejection with no state change; ticket count 11 yields the range
rejection with no state change. -/
theorem reserve_input_validation_witness :
    reserveHandler ⟨[], dbWitness⟩ 600 "T" 99 (some 9) (some 1) (some 0)
      = (ReserveResult.missingFields, ⟨[], dbWitness⟩)
    ∧ (⟨[], dbWitness⟩ : SysState) = ⟨[], dbWitness⟩ :=
  ⟨(reserve_input_validation ⟨[], dbWitness⟩ 600 "T" 99 (some 9) (some 1) (some 0)).1
      (Or.inr (Or.inr (Or.inr (Or.inr (Or.inr rfl))))),
   ((reserve_input_validation ⟨[], dbWitness⟩ 600 "T" 99 (some 9) (some 1) (some 11)).2
      ⟨[], dbWitness⟩ (by decide)).1⟩

/-- Lookup by id (`find?`) commutes with mapping an id-preserving update over
the table. -/
theorem find_map_preserve_id (l : List Booking) (bid : Nat)
    (f : Booking → Booking) (hf : ∀ x, (f x).id = x.id) :
    (l.map f).find? (fun x => decide (x.id = bid))
      = (l.find? (fun x => decide (x.id = bid))).map f := by
  induction l with
  | nil => rfl
  | cons a l ih =>
    rw [List.map_cons]
    by_cases h : a.id = bid
    · rw [List.find?_cons_of_pos (p := fun x : Booking => decide (x.id = bid)) _
            (by simp [hf a, h]),
          List.find?_cons_of_pos (p := fun x : Booking => decide (x.id = bid)) _ (by simp [h])]
      rfl
    · rw [List.find?_cons_of_neg (p := fun x : Booking => decide (x.id = bid)) _
            (by simp [hf a, h]),
          List.find?_cons_of_neg (p := fun x : Booking => decide (x.id = bid)) _ (by simp [h])]
      exact ih

/-- Confirm-payment on a booking found in a non-pending status rejects
without touching the database. -/
theorem confirmPayment_notPending (db : DB) (bid : Nat) (pid pm : String)
    (b : Booking) (hfind : bookingFindById db bid = some b)
    (hnp : b.status ≠ BStatus.pending) :
    confirmPayment db bid pid pm = (ConfirmResult.notPending, db) := by
  unfold confirmPayment
  rw [hfind]
  simp [hnp]

/-- C4: confirm-payment on a booking found `pending` succeeds, marks
every row with that id `confirmed` with `payment_status = completed`,
appends exactly one completed `payments` row for the booking's
`total_amount`, and leaves `events` (hence `available_tickets`)
untouched; a second call on the resulting state — and any call on a
booking found in a non-`pending` status — is rejected with no change
at all. -/
theorem confirmPayment_idempotent (db : DB) (bid : Nat) (pid pm : String)
    (b : Booking) (hfind : bookingFindById db bid = some b) :
    (b.status = BStatus.pending →
      confirmPayment db bid pid pm
        = (ConfirmResult.success,
           { db with
               bookings := db.bookings.map (confirmUpd bid),
               payments := db.payments ++
                 [{ bookingId := bid, amount := b.totalAmount, method := pm,
                    gatewayId := pid, status := PayStatus.completed }] })
      ∧ confirmPayment (confirmPayment db bid pid pm).2 bid pid pm
          = (ConfirmResult.notPending, (confirmPayment db bid pid pm).2))
    ∧ (b.status ≠ BStatus.pending →
      confirmPayment db bid pid pm = (ConfirmResult.notPending, db)) := by
  have hfind' := hfind
  unfold bookingFindById at hfind'
  have hid : b.id = bid := by
    have := List.find?_some hfind'
    simpa using this
  have hidpres : ∀ x : Booking, (confirmUpd bid x).id = x.id := by
    intro x
    unfold confirmUpd
    split <;> rfl
  constructor
  · intro hp
    have h1 : confirmPayment db bid pid pm
        = (ConfirmResult.success,
           { db with
               bookings := db.bookings.map (confirmUpd bid),
               payments := db.payments ++
                 [{ bookingId := bid, amount := b.totalAmount, method := pm,
                    gatewayId := pid, status := PayStatus.completed }] }) := by
      unfold confirmPayment
      rw [hfind]
      simp [hp]
    refine ⟨h1, ?_⟩
    have hfind2 : bookingFindById
        ({ db with
             bookings := db.bookings.map (confirmUpd bid),
             payments := db.payments ++
               [{ bookingId := bid, amount := b.totalAmount, method := pm,
                  gatewayId := pid, status := PayStatus.completed }] } : DB) bid
        = some { b with status := BStatus.confirmed,
                        paymentStatus := PayStatus.completed } := by
      unfold bookingFindById
      show (db.bookings.map (confirmUpd bid)).find? (fun x => decide (x.id = bid)) = _
      rw [find_map_preserve_id db.bookings bid (confirmUpd bid) hidpres, hfind']
      simp [confirmUpd, hid]
    rw [h1]
    exact confirmPayment_notPending _ bid pid pm _ hfind2 (by simp)
  · intro hnp
    exact confirmPayment_notPending db bid pid pm b hfind hnp

/-- Witness for C4: confirming booking 1 of `dbWitness` succeeds once
and is rejected when repeated. -/
theorem confirmPayment_idempotent_witness :
    confirmPayment dbWitness 1 "P1" "credit_card"
      = (ConfirmResult.success,
         { dbWitness with
             bookings := dbWitness.bookings.map (confirmUpd 1),
             payments := dbWitness.payments ++
               [{ bookingId := 1, amount := 100, method := "credit_card",
                  gatewayId := "P1", status := PayStatus.completed }] })
    ∧ confirmPayment (confirmPayment dbWitness 1 "P1" "credit_card").2 1 "P1" "credit_card"
        = (ConfirmResult.notPending, (confirmPayment dbWitness 1 "P1" "credit_card").2) :=
  (confirmPayment_idempotent dbWitness 1 "P1" "credit_card" bkWitness
      (by decide)).1 (by decide)

/-- C8: every accepted cancellation — of a pending booking, of an
expired booking (the source does not guard that status), or of a
confirmed booking more than 24 hours before its event — returns a
refund of `total_amount` exactly when `payment_status` is completed
and 0 otherwise, marks the booking cancelled, and adds its
`ticket_count` back to the event's `available_tickets`. -/
theorem cancel_refund (db : DB) (now : Int) (bid uid : Nat) (b : Booking)
    (hfind : bookingFind db bid uid = some b)
    (hok : b.status = BStatus.pending ∨ b.status = BStatus.expired
        ∨ (b.status = BStatus.confirmed ∧ ∃ ev, eventFindById db b.eventId = some ev
            ∧ 24 * 3600 * 1000 ≤ ev.eventDate - now)) :
    cancel db now bid uid
      = (CancelResult.success
           (if b.paymentStatus = PayStatus.completed then b.totalAmount else 0),
         { db with
             events := restoreTickets db.events b.eventId b.ticketCount,
             bookings := db.bookings.map (fun x =>
               if x.id = bid then { x with status := BStatus.cancelled } else x) }) := by
  unfold cancel
  rw [hfind]
  rcases hok with hp | hx | ⟨hc, ev, hev, h24⟩
  · simp [hp, applyCancel]
  · simp [hx, applyCancel]
  · simp [hc, hev, Int.not_lt.mpr h24, applyCancel]
    omega

/-- Witness for C8: cancelling the pending, unpaid booking of
`dbWitness` refunds 0 and restores its two tickets. -/
theorem cancel_refund_witness :
    cancel dbWitness 600 1 7
      = (CancelResult.success 0,
         { dbWitness with
             events := restoreTickets dbWitness.events 1 2,
             bookings := dbWitness.bookings.map (fun x =>
               if x.id = 1 then { x with status := BStatus.cancelled } else x) }) :=
  cancel_refund dbWitness 600 1 7 bkWitness (by decide) (Or.inl (by decide))

/-- Cancellation never writes the `payment_status` column. -/
theorem cancel_paymentStatus (db : DB) (now : Int) (bid uid : Nat) :
    (cancel db now bid uid).2.bookings.map (fun b => b.paymentStatus)
      = db.bookings.map (fun b => b.paymentStatus) := by
  unfold cancel
  cases hb : bookingFind db bid uid with
  | none => rfl
  | some b =>
    by_cases h1 : b.status = BStatus.cancelled
    · simp [h1]
    · by_cases h2 : b.status = BStatus.confirmed
      · cases he : eventFindById db b.eventId with
        | none => simp [h1, h2, he]
        | some ev =>
          by_cases h3 : ev.eventDate - now < 86400000
          · simp [h1, h2, he, h3]
          · simp [h1, h2, he, h3, applyCancel]
            intro a _
            split <;> rfl
      · simp [h1, h2, applyCancel]
        intro a _
        split <;> rfl

/-- The expiry sweep never writes the `payment_status` column. -/
theorem sweep_paymentStatus (db : DB) (now : Int) :
    (sweepExpired db now).2.bookings.map (fun b => b.paymentStatus)
      = db.bookings.map (fun b => b.paymentStatus) := by
  unfold sweepExpired
  by_cases h : (db.bookings.filter (isSweepable now)).isEmpty
  · simp [h]
  · simp [h]
    intro a _
    split <;> rfl

/-- Reservation introduces no `refunded` payment status. -/
theorem reserveTx_no_refunded (db : DB) (now : Int) (u e : Nat) (tc : Int)
    (newId : Nat)
    (h : ∀ b ∈ db.bookings, b.paymentStatus ≠ PayStatus.refunded) :
    ∀ b ∈ (reserveTx db now u e tc newId).2.bookings,
      b.paymentStatus ≠ PayStatus.refunded := by
  intro b hb
  unfold reserveTx at hb
  split at hb
  · exact h b hb
  · split at hb
    · exact h b hb
    · split at hb
      · exact h b hb
      · split at hb
        · exact h b hb
        · simp only [List.mem_append, List.mem_singleton] at hb
          rcases hb with hb | hb
          · exact h b hb
          · rw [hb]
            simp

/-- Payment confirmation introduces no `refunded` payment status. -/
theorem confirm_no_refunded (db : DB) (bid : Nat) (pid pm : String)
    (h : ∀ b ∈ db.bookings, b.paymentStatus ≠ PayStatus.refunded) :
    ∀ b ∈ (confirmPayment db bid pid pm).2.bookings,
      b.paymentStatus ≠ PayStatus.refunded := by
  intro b hb
  unfold confirmPayment at hb
  split at hb
  · exact h b hb
  · split at hb
    · simp only [List.mem_map] at hb
      obtain ⟨x, hx, rfl⟩ := hb
      unfold confirmUpd
      split
      · simp
      · exact h x hx
    · exact h b hb

/-- C10: neither cancellation nor the expiry sweep modifies any
booking's `payment_status` (so a booking whose payment completed keeps
`payment_status = completed` after being cancelled), and no operation
— reserve, cancel, confirm-payment or sweep — ever writes the value
`refunded` into a booking's `payment_status`. -/
theorem paymentStatus_frame (db : DB) (now : Int) (bid uid newId u e : Nat)
    (pid pm : String) (tc : Int) :
    ((cancel db now bid uid).2.bookings.map (fun b => b.paymentStatus)
        = db.bookings.map (fun b => b.paymentStatus))
    ∧ ((sweepExpired db now).2.bookings.map (fun b => b.paymentStatus)
        = db.bookings.map (fun b => b.paymentStatus))
    ∧ ((∀ b ∈ db.bookings, b.paymentStatus ≠ PayStatus.refunded) →
        (∀ b ∈ (reserveTx db now u e tc newId).2.bookings,
            b.paymentStatus ≠ PayStatus.refunded)
        ∧ (∀ b ∈ (confirmPayment db bid pid pm).2.bookings,
            b.paymentStatus ≠ PayStatus.refunded)) :=
  ⟨cancel_paymentStatus db now bid uid,
   sweep_paymentStatus db now,
   fun h => ⟨reserveTx_no_refunded db now u e tc newId h,
             confirm_no_refunded db bid pid pm h⟩⟩

/-- Witness for C10 on `dbWitness`: the cancel column equation at a
concrete state, and the confirmed row of the post-confirmation table is
not `refunded`. -/
theorem paymentStatus_frame_witness :
    ((cancel dbWitness 600 1 7).2.bookings.map (fun b => b.paymentStatus)
        = dbWitness.bookings.map (fun b => b.paymentStatus))
    ∧ (confirmUpd 1 bkWitness).paymentStatus ≠ PayStatus.refunded :=
  ⟨(paymentStatus_frame dbWitness 600 1 7 99 9 1 "P1" "credit_card" 1).1,
   ((paymentStatus_frame dbWitness 600 1 7 99 9 1 "P1" "credit_card" 1).2.2
      (by decide)).2 (confirmUpd 1 bkWitness) (by decide)⟩

/-- Splitting `eventTicketSum` over a cons isolates the head's contribution. -/
theorem eventTicketSum_cons (b : Booking) (l : List Booking) (eid : Nat) :
    eventTicketSum (b :: l) eid
      = (if b.eventId = eid then b.ticketCount else 0) + eventTicketSum l eid := by
  unfold eventTicketSum ticketSum
  rw [List.filter_cons]
  by_cases h : b.eventId = eid
  · simp [h]
  · simp [h]

/-- Folding the per-booking ticket restoration over a list of bookings
adds, to each event, exactly the total ticket count of the list's
bookings for that event — the "restored exactly once" accounting. -/
theorem foldl_restoreTickets (L : List Booking) (es : List Event) :
    L.foldl (fun acc b => restoreTickets acc b.eventId b.ticketCount) es
      = es.map (fun e =>
          { e with availableTickets := e.availableTickets + eventTicketSum L e.id }) := by
  induction L generalizing es with
  | nil =>
    rw [List.foldl_nil]
    symm
    have h : ∀ e ∈ es,
        ({ e with availableTickets := e.availableTickets + eventTicketSum [] e.id }
            : Event) = e := by
      intro e _
      simp [eventTicketSum, ticketSum]
    rw [List.map_congr_left h]
    simp
  | cons b L ih =>
    rw [List.foldl_cons, ih]
    unfold restoreTickets
    rw [List.map_map]
    apply List.map_congr_left
    intro e _
    simp only [Function.comp_apply]
    by_cases h : e.id = b.eventId
    · have h' : b.eventId = e.id := h.symm
      rw [if_pos h, eventTicketSum_cons, if_pos h']
      simp [Int.add_assoc]
    · have h' : ¬ b.eventId = e.id := fun hc => h hc.symm
      rw [if_neg h, eventTicketSum_cons, if_neg h']
      simp

/-- C3: on any state, the sweep reports exactly the number of pending
bookings whose `expires_at` is past, marks exactly those bookings
`expired` (all others untouched), adds each such booking's
`ticket_count` back to its event's `available_tickets` exactly once
(each event gains precisely the summed ticket counts of its own swept
bookings), leaves payments untouched, and is a no-op returning 0 when
no booking is eligible. -/
theorem sweepExpired_spec (db : DB) (now : Int) :
    (sweepExpired db now).1 = (db.bookings.filter (isSweepable now)).length
    ∧ (sweepExpired db now).2.bookings = db.bookings.map (fun b =>
        if isSweepable now b then { b with status := BStatus.expired } else b)
    ∧ (sweepExpired db now).2.events = db.events.map (fun e =>
        { e with availableTickets := e.availableTickets
            + eventTicketSum (db.bookings.filter (isSweepable now)) e.id })
    ∧ (sweepExpired db now).2.payments = db.payments
    ∧ (db.bookings.filter (isSweepable now) = [] → sweepExpired db now = (0, db)) := by
  by_cases h : (db.bookings.filter (isSweepable now)).isEmpty
  · have hnil : db.bookings.filter (isSweepable now) = [] := List.isEmpty_iff.mp h
    have hall : ∀ b ∈ db.bookings, ¬ isSweepable now b = true :=
      List.filter_eq_nil_iff.mp hnil
    have hsw : sweepExpired db now = (0, db) := by
      simp only [sweepExpired]
      rw [if_pos h]
    refine ⟨?_, ?_, ?_, ?_, fun _ => hsw⟩
    · rw [hsw, hnil]
      rfl
    · rw [hsw]
      symm
      have hmap : ∀ b ∈ db.bookings,
          (if isSweepable now b then
              ({ b with status := BStatus.expired } : Booking)
            else b) = b := by
        intro b hb
        rw [if_neg (hall b hb)]
      rw [List.map_congr_left hmap]
      simp
    · rw [hsw, hnil]
      have := foldl_restoreTickets ([] : List Booking) db.events
      rw [List.foldl_nil] at this
      exact this
    · rw [hsw]
  · have hexp : sweepExpired db now
        = ((db.bookings.filter (isSweepable now)).length,
           { db with
               events := (db.bookings.filter (isSweepable now)).foldl
                 (fun acc b => restoreTickets acc b.eventId b.ticketCount) db.events,
               bookings := db.bookings.map (fun b =>
                 if isSweepable now b then { b with status := BStatus.expired }
                 else b) }) := by
      simp only [sweepExpired]
      rw [if_neg h]
    refine ⟨?_, ?_, ?_, ?_, ?_⟩
    · rw [hexp]
    · rw [hexp]
    · rw [hexp]
      exact foldl_restoreTickets _ db.events
    · rw [hexp]
    · intro hnil
      exact absurd (by rw [hnil]; rfl :
        (db.bookings.filter (isSweepable now)).isEmpty = true) h

/-- Witness for C3: on `dbWitness` before any expiry (its booking
expires at 500, the clock reads 100), the sweep is a no-op returning
0. -/
theorem sweepExpired_spec_witness :
    sweepExpired dbWitness 100 = (0, dbWitness) :=
  (sweepExpired_spec dbWitness 100).2.2.2.2 (by decide)

/-- A state reachable by booking both tickets of a 2-ticket event and
letting the sweep expire the booking: the booking is `expired` and
both tickets are back in the pool, so the inventory invariant holds. -/
def dbExpiredEx : DB :=
  { events := [{ id := 1, eventDate := 1000000000, totalTickets := 2,
                 availableTickets := 2, price := 50, status := EStatus.active }],
    bookings := [{ id := 1, userId := 7, eventId := 1, ticketCount := 2,
                   totalAmount := 100, status := BStatus.expired,
                   paymentStatus := PayStatus.pending, expiresAt := 500 }],
    payments := [] }

/-- C1: the inventory invariant is NOT preserved by every completed
operation. On `dbExpiredEx` the invariant holds (2 available + 0 active
= 2 total), yet cancelling the expired booking completes successfully
and leaves a state where the invariant fails: the cancel handler has no
guard for status `expired`, so it adds the booking's tickets to
`available_tickets` a second time (the sweep already restored them),
making `available_tickets = 4 > total_tickets = 2`. -/
theorem cancel_expired_breaks_invariant :
    invariantHolds dbExpiredEx
    ∧ (cancel dbExpiredEx 600 1 7).1 = CancelResult.success 0
    ∧ ¬ invariantHolds (cancel dbExpiredEx 600 1 7).2 := by
  refine ⟨?_, ?_, ?_⟩ <;> decide

/-- C2: Cancel invoked on a booking whose status is `expired` is NOT
rejected: on `dbExpiredEx` (booking 1 `expired`, event 1 with 2 of 2
tickets available) the cancel request succeeds, performs the
`expired → cancelled` transition, and changes the event's
`available_tickets` from 2 to 4 — contradicting the claim that every
transition outside the four legal ones is rejected without changing
the booking's status or the event's `available_tickets`. -/
theorem cancel_expired_not_rejected :
    (bookingFindById dbExpiredEx 1).map (fun b => b.status) = some BStatus.expired
    ∧ (eventFindById dbExpiredEx 1).map (fun e => e.availableTickets) = some 2
    ∧ (cancel dbExpiredEx 600 1 7).1 = CancelResult.success 0
    ∧ (bookingFindById (cancel dbExpiredEx 600 1 7).2 1).map (fun b => b.status)
        = some BStatus.cancelled
    ∧ (eventFindById (cancel dbExpiredEx 600 1 7).2 1).map (fun e => e.availableTickets)
        = some 4 := by
  refine ⟨?_, ?_, ?_, ?_, ?_⟩ <;> decide

/-- Witness for C1: the offending cancel call completes successfully on
the concrete state. -/
theorem cancel_expired_breaks_invariant_witness :
    (cancel dbExpiredEx 600 1 7).1 = CancelResult.success 0 :=
  cancel_expired_breaks_invariant.2.1

/-- Witness for C2: after cancelling the expired booking the event
reports 4 available tickets out of 2. -/
theorem cancel_expired_not_rejected_witness :
    (eventFindById (cancel dbExpiredEx 600 1 7).2 1).map (fun e => e.availableTickets)
      = some 4 :=
  cancel_expired_not_rejected.2.2.2.2

end TicketSystem
